import Mathlib

/-!
Verification of the UXP `storage` layer contract (src/uxp/index.d.ts).

The repository ships ambient TypeScript declarations only, so the
behavioural parts of the layer (token broker, entry operations, pickers,
read/write) have no implementation under src/.  Where a definition below
embeds such behaviour it is marked `Modelled from the spec:` and follows
the specification's words; the declaration file remains the authority for
everything it does state (signatures, synchrony, flags, doc-comment
behaviour).
-/

namespace UXP
namespace storage

/-- The closed error taxonomy of `storage.errors`, plus the generic
not-found kind (the source describes unknown tokens as a
Reference Error condition). -/
inductive ErrorKind where
  | abstractMethodInvocation
  | dataFileFormatMismatch
  | domainNotSupported
  | entryExists
  | entryIsNotAFile
  | entryIsNotAFolder
  | entryIsNotAnEntry
  | fileIsReadOnly
  | invalidFileFormat
  | invalidFileName
  | notAFileSystem
  | outOfSpace
  | permissionDenied
  | providerMismatch
  | referenceNotFound
  deriving DecidableEq, Repr

/-- `storage.modes`: the file open modes. -/
inductive ModeSymbol where
  | readOnly
  | readWrite
  deriving DecidableEq, Repr

/-- `storage.formats`: the file content formats. -/
inductive FormatSymbol where
  | utf8
  | binary
  deriving DecidableEq, Repr

/-- `storage.types`: the entry types used when creating an entry. -/
inductive TypeSymbol where
  | file
  | folder
  deriving DecidableEq, Repr

/-- The runtime class of an entry object.  `base` is a directly
constructed `Entry` (the declaration file exposes a public
`constructor(name, provider, id)`); `file` and `folder` are instances of
the two subclasses. -/
inductive EntryKind where
  | base
  | file
  | folder
  deriving DecidableEq, Repr

/-- An `Entry`: name (last path component), owning provider reference
(modelled as an opaque numeric handle), provider-private opaque `id`, and
the runtime class the instance was constructed with. -/
structure Entry where
  name : String
  provider : Nat
  id : String
  kind : EntryKind
  deriving DecidableEq, Repr

/-- `Entry.isEntry`: indicates that this instance is an Entry. -/
def Entry.isEntry (_e : Entry) : Bool := true

/-- The `isFile` flag.  The base-class declaration documents it as
"Indicates that this instance is not a File"; the `File` subclass
overrides it to true. -/
def Entry.isFile (e : Entry) : Bool := e.kind == EntryKind.file

/-- The `isFolder` flag.  The base-class declaration documents it as
"Indicates that this instance is not a folder"; the `Folder` subclass
overrides it to true. -/
def Entry.isFolder (e : Entry) : Bool := e.kind == EntryKind.folder

/-- Modelled from the spec: the Token Broker's session map — the backing
store of `createSessionToken` / `getEntryForSessionToken` is
process-lifetime in-memory state (spec section 4.6); no implementation
exists under src/. -/
structure SessionTokenState where
  sessions : List (String × Entry)
  nextId : Nat
  deriving Repr

/-- Modelled from the spec: `FileSystemProvider.createSessionToken` —
synchronously mints a fresh opaque token for the entry and records the
mapping in the session map (spec section 4.6). -/
def createSessionToken (s : SessionTokenState) (e : Entry) :
    String × SessionTokenState :=
  let token := "uxp-session-" ++ toString s.nextId
  (token, ⟨(token, e) :: s.sessions, s.nextId + 1⟩)

/-- Modelled from the spec: `FileSystemProvider.getEntryForSessionToken`
— synchronously resolves a session token against the session map; an
unknown token fails with the not-found (reference-error) kind rather than
producing a null entry (spec section 4.6). -/
def getEntryForSessionToken (s : SessionTokenState) (token : String) :
    Except ErrorKind Entry :=
  match s.sessions.lookup token with
  | some e => Except.ok e
  | none => Except.error ErrorKind.referenceNotFound

/-- Modelled from the spec: the Token Broker's persistent-token mapping
as visible within one resolution call (spec section 4.6); no
implementation exists under src/. -/
structure PersistentTokenState where
  persistents : List (String × Entry)
  deriving Repr

/-- Modelled from the spec:
`FileSystemProvider.getEntryForPersistentToken` — resolves a persistent
token; resolution of an unknown or invalidated token fails with the
not-found (reference-error) kind, never with a silent null entry (spec
sections 4.6 and 7). -/
def getEntryForPersistentToken (s : PersistentTokenState) (token : String) :
    Except ErrorKind Entry :=
  match s.persistents.lookup token with
  | some e => Except.ok e
  | none => Except.error ErrorKind.referenceNotFound

/-- C1: Within one process, `createSessionToken e` followed by
`getEntryForSessionToken` on the returned token yields an Entry whose
`provider` and provider-private `id` are identical to those of `e`. -/
theorem session_token_roundtrip (s : SessionTokenState) (e : Entry) :
    ∃ r : Entry,
      getEntryForSessionToken (createSessionToken s e).2
          (createSessionToken s e).1 = Except.ok r ∧
      r.provider = e.provider ∧ r.id = e.id := by
  refine ⟨e, ?_, rfl, rfl⟩
  simp [createSessionToken, getEntryForSessionToken, List.lookup]

/-- C4: Resolving a token that has no mapping fails with the not-found
(reference-error) kind, both for the synchronous session lookup and the
asynchronous persistent lookup, and never resolves to a null entry (the
result is either that error or `Except.ok` of an actual Entry). -/
theorem unknown_token_fails (s : SessionTokenState)
    (p : PersistentTokenState) (token : String)
    (hs : s.sessions.lookup token = none)
    (hp : p.persistents.lookup token = none) :
    getEntryForSessionToken s token
        = Except.error ErrorKind.referenceNotFound ∧
    getEntryForPersistentToken p token
        = Except.error ErrorKind.referenceNotFound := by
  constructor
  · simp [getEntryForSessionToken, hs]
  · simp [getEntryForPersistentToken, hp]

/-- Witness for C4: resolving the garbage token "garbage" against empty
broker state fails with the not-found kind on both paths. -/
theorem unknown_token_fails_witness :
    getEntryForSessionToken ⟨[], 0⟩ "garbage"
        = Except.error ErrorKind.referenceNotFound ∧
    getEntryForPersistentToken ⟨[]⟩ "garbage"
        = Except.error ErrorKind.referenceNotFound :=
  unknown_token_fails ⟨[], 0⟩ ⟨[]⟩ "garbage" rfl rfl

/-- Options accepted by `Entry.copyTo`. -/
structure CopyOptions where
  overwrite : Bool
  allowFolderCopy : Bool
  deriving DecidableEq, Repr

/-- Options accepted by `Entry.moveTo`. -/
structure MoveOptions where
  overwrite : Bool
  newName : Option String
  deriving DecidableEq, Repr

/-- Modelled from the spec: `Entry.copyTo` — no implementation exists
under src/.  Per spec sections 4.2 and 8, a provider mismatch between the
entry and the target folder fails with provider-mismatch regardless of
the option flags; copying a folder without `allowFolderCopy` fails with
entry-is-not-a-file; a name collision without `overwrite` fails with
entry-exists.  `targetChildren` is the target folder's current child-name
listing. -/
def copyTo (e : Entry) (target : Entry) (targetChildren : List String)
    (opts : CopyOptions) : Except ErrorKind Entry :=
  if e.provider ≠ target.provider then
    Except.error ErrorKind.providerMismatch
  else if e.kind == EntryKind.folder && !opts.allowFolderCopy then
    Except.error ErrorKind.entryIsNotAFile
  else if targetChildren.contains e.name && !opts.overwrite then
    Except.error ErrorKind.entryExists
  else
    Except.ok ⟨e.name, target.provider, e.id ++ "+copy", e.kind⟩

/-- Modelled from the spec: `Entry.moveTo` — no implementation exists
under src/.  Per spec sections 4.2 and 8, moving across providers is not
supported and fails with provider-mismatch regardless of the option
flags; otherwise the overwrite semantics match `copyTo`, with the
optional `newName` replacing the entry's name. -/
def moveTo (e : Entry) (target : Entry) (targetChildren : List String)
    (opts : MoveOptions) : Except ErrorKind Unit :=
  if e.provider ≠ target.provider then
    Except.error ErrorKind.providerMismatch
  else
    let finalName := match opts.newName with
      | some n => n
      | none => e.name
    if targetChildren.contains finalName && !opts.overwrite then
      Except.error ErrorKind.entryExists
    else
      Except.ok ()

/-- C3: When the source entry's provider differs from the target
folder's provider, `copyTo` and `moveTo` fail with ProviderMismatch for
every combination of the overwrite / allowFolderCopy / newName options
and every folder listing, and never succeed. -/
theorem cross_provider_copy_move_fails (e target : Entry)
    (targetChildren : List String) (copts : CopyOptions)
    (mopts : MoveOptions) (h : e.provider ≠ target.provider) :
    copyTo e target targetChildren copts
        = Except.error ErrorKind.providerMismatch ∧
    moveTo e target targetChildren mopts
        = Except.error ErrorKind.providerMismatch := by
  constructor
  · simp [copyTo, h]
  · simp [moveTo, h]

/-- Witness for C3: a file of provider 0 copied or moved into a folder
of provider 1 fails with ProviderMismatch, here with all flags set. -/
theorem cross_provider_copy_move_fails_witness :
    copyTo ⟨"a.txt", 0, "id0", EntryKind.file⟩
        ⟨"dest", 1, "id1", EntryKind.folder⟩ ["a.txt"] ⟨true, true⟩
        = Except.error ErrorKind.providerMismatch ∧
    moveTo ⟨"a.txt", 0, "id0", EntryKind.file⟩
        ⟨"dest", 1, "id1", EntryKind.folder⟩ ["a.txt"] ⟨true, some "b"⟩
        = Except.error ErrorKind.providerMismatch :=
  cross_provider_copy_move_fails _ _ _ _ _ (by decide)

/-- C2 counterexample: the claim "for every Entry exactly one of isFile,
isFolder is true" fails on a directly constructed base `Entry` (the
declaration file exposes a public `Entry` constructor, and documents the
base-class flags as "not a File" / "not a folder"): both flags are
false on it. -/
theorem entry_flags_counterexample :
    ¬ (((Entry.mk "orphan" 0 "id0" EntryKind.base).isFile = true ∧
        (Entry.mk "orphan" 0 "id0" EntryKind.base).isFolder = false) ∨
       ((Entry.mk "orphan" 0 "id0" EntryKind.base).isFile = false ∧
        (Entry.mk "orphan" 0 "id0" EntryKind.base).isFolder = true)) := by
  decide

/-- C2 (amended): every Entry that is a File or a Folder instance has
exactly one of the `isFile` / `isFolder` flags set, while a directly
constructed base Entry has both flags false. -/
theorem entry_flags_exclusive (e : Entry) :
    (e.kind ≠ EntryKind.base →
      (e.isFile = true ∧ e.isFolder = false) ∨
      (e.isFile = false ∧ e.isFolder = true)) ∧
    (e.kind = EntryKind.base → e.isFile = false ∧ e.isFolder = false) := by
  cases e with
  | mk name provider id kind =>
    cases kind <;> simp [Entry.isFile, Entry.isFolder]

/-- Witness for C2 (amended): a concrete File entry has `isFile` true
and `isFolder` false. -/
theorem entry_flags_exclusive_witness :
    ((Entry.mk "a.txt" 0 "id0" EntryKind.file).isFile = true ∧
     (Entry.mk "a.txt" 0 "id0" EntryKind.file).isFolder = false) ∨
    ((Entry.mk "a.txt" 0 "id0" EntryKind.file).isFile = false ∧
     (Entry.mk "a.txt" 0 "id0" EntryKind.file).isFolder = true) :=
  (entry_flags_exclusive ⟨"a.txt", 0, "id0", EntryKind.file⟩).1 (by decide)

/-- Data passed to `File.write` / returned by `File.read`: the source
declares `string | ArrayBuffer`. -/
inductive FileData where
  | text (s : String)
  | binary (bytes : List Nat)
  deriving DecidableEq, Repr

/-- A `File` instance: its entry identity, the access mode fixed at
creation time, and the current backing-store content as bytes. -/
structure File where
  entry : Entry
  mode : ModeSymbol
  content : List Nat
  deriving DecidableEq, Repr

/-- UTF-8 encoding of a single character (1 to 4 bytes). -/
def utf8EncodeChar (c : Char) : List Nat :=
  let n := c.toNat
  if n < 0x80 then [n]
  else if n < 0x800 then
    [0xC0 + n / 64, 0x80 + n % 64]
  else if n < 0x10000 then
    [0xE0 + n / 4096, 0x80 + n / 64 % 64, 0x80 + n % 64]
  else
    [0xF0 + n / 262144, 0x80 + n / 4096 % 64, 0x80 + n / 64 % 64,
     0x80 + n % 64]

/-- UTF-8 encoding of a string as a byte list. -/
def utf8Encode (s : String) : List Nat :=
  (s.data.map utf8EncodeChar).flatten

/-- True for a UTF-8 continuation byte. -/
def isContinuationByte (b : Nat) : Bool :=
  0x80 ≤ b && b < 0xC0

/-- UTF-8 decoding of a byte list; `none` when the bytes are not a valid
UTF-8 sequence. -/
def utf8Decode : List Nat → Option (List Char)
  | [] => some []
  | b :: rest =>
    if b < 0x80 then
      match utf8Decode rest with
      | some cs => some (Char.ofNat b :: cs)
      | none => none
    else if b < 0xC0 then none
    else if b < 0xE0 then
      match rest with
      | b1 :: rest1 =>
        if isContinuationByte b1 then
          match utf8Decode rest1 with
          | some cs => some (Char.ofNat ((b - 0xC0) * 64 + (b1 - 0x80)) :: cs)
          | none => none
        else none
      | [] => none
    else if b < 0xF0 then
      match rest with
      | b1 :: b2 :: rest2 =>
        if isContinuationByte b1 && isContinuationByte b2 then
          match utf8Decode rest2 with
          | some cs =>
            some (Char.ofNat
              ((b - 0xE0) * 4096 + (b1 - 0x80) * 64 + (b2 - 0x80)) :: cs)
          | none => none
        else none
      | _ => none
    else if b < 0xF8 then
      match rest with
      | b1 :: b2 :: b3 :: rest3 =>
        if isContinuationByte b1 && isContinuationByte b2 &&
            isContinuationByte b3 then
          match utf8Decode rest3 with
          | some cs =>
            some (Char.ofNat
              ((b - 0xF0) * 262144 + (b1 - 0x80) * 4096 +
               (b2 - 0x80) * 64 + (b3 - 0x80)) :: cs)
          | none => none
        else none
      | _ => none
    else none

/-- Options accepted by `File.write`; the source defaults `format` to
UTF-8 and `append` to false, so the defaults are spelled out at call
sites here. -/
structure WriteOptions where
  format : FormatSymbol
  append : Bool
  deriving DecidableEq, Repr

/-- Bytes to be written for the given data under the given format;
`none` when data and format disagree (an unsupported format use). -/
def encodeForWrite (data : FileData) (format : FormatSymbol) :
    Option (List Nat) :=
  match data, format with
  | FileData.text s, FormatSymbol.utf8 => some (utf8Encode s)
  | FileData.binary bs, FormatSymbol.binary => some bs
  | _, _ => none

/-- Modelled from the spec: `File.write` — no implementation exists
under src/.  Per spec section 4.3 and the declaration's doc comment, a
write on a read-only file fails with file-is-read-only; a write the
backing store cannot hold (`capacity` is the remaining quota, `none`
meaning unlimited) fails with out-of-space; otherwise the content is
replaced (or appended to, when `append`) and the length of the written
contents is returned.  The file value paired with the result is the file
after the call: unchanged whenever the call fails. -/
def write (f : File) (data : FileData) (opts : WriteOptions)
    (capacity : Option Nat) : Except ErrorKind Nat × File :=
  if f.mode = ModeSymbol.readOnly then
    (Except.error ErrorKind.fileIsReadOnly, f)
  else
    match encodeForWrite data opts.format with
    | none => (Except.error ErrorKind.invalidFileFormat, f)
    | some bytes =>
      let newContent := if opts.append then f.content ++ bytes else bytes
      match capacity with
      | some cap =>
        if cap < newContent.length then
          (Except.error ErrorKind.outOfSpace, f)
        else
          (Except.ok bytes.length, ⟨f.entry, f.mode, newContent⟩)
      | none => (Except.ok bytes.length, ⟨f.entry, f.mode, newContent⟩)

/-- Modelled from the spec: `File.read` — no implementation exists under
src/.  Per spec section 4.3, reading a non-file disguised as a File
fails with entry-is-not-a-file (defensive check); reading with the UTF-8
format fails with data-file-format-mismatch when the content does not
decode; the binary format returns the raw bytes. -/
def read (f : File) (format : FormatSymbol) : Except ErrorKind FileData :=
  if f.entry.kind ≠ EntryKind.file then
    Except.error ErrorKind.entryIsNotAFile
  else
    match format with
    | FormatSymbol.binary => Except.ok (FileData.binary f.content)
    | FormatSymbol.utf8 =>
      match utf8Decode f.content with
      | some cs => Except.ok (FileData.text (String.mk cs))
      | none => Except.error ErrorKind.dataFileFormatMismatch

/-- A fresh read-write file entry with empty backing content, as
produced by folder-based file creation. -/
def freshReadWriteFile (name : String) (provider : Nat) (id : String) :
    File :=
  ⟨⟨name, provider, id, EntryKind.file⟩, ModeSymbol.readWrite, []⟩

/-- C8: On a fresh read-write File, writing the string "abc" with the
utf8 format and then reading with the utf8 format returns exactly "abc"
(and the write reports 3 bytes written). -/
theorem write_read_utf8_roundtrip_abc (name : String) (provider : Nat)
    (id : String) :
    (write (freshReadWriteFile name provider id) (FileData.text "abc")
        ⟨FormatSymbol.utf8, false⟩ none).1 = Except.ok 3 ∧
    read (write (freshReadWriteFile name provider id)
        (FileData.text "abc") ⟨FormatSymbol.utf8, false⟩ none).2
        FormatSymbol.utf8 = Except.ok (FileData.text "abc") := by
  constructor <;> rfl

/-- The outcome of a host picker dialog: the user either cancelled or
made a choice. -/
inductive PickResult (α : Type) where
  | cancelled
  | picked (choice : α)

/-- A file as offered by the host's open-file picker: its identity and
the current on-disk content. -/
structure PickedFile where
  name : String
  provider : Nat
  id : String
  content : List Nat
  deriving Repr

/-- A folder as offered by the host's folder picker: its identity and
the current child listing (name and kind per child). -/
structure PickedFolder where
  name : String
  provider : Nat
  id : String
  children : List (String × EntryKind)
  deriving Repr

/-- The backing store of one folder: its entry identity and the current
child listing (name and kind per child). -/
structure FolderState where
  entry : Entry
  children : List (String × EntryKind)
  deriving DecidableEq, Repr

/-- The plugin-observable state of the storage layer: the token broker's
maps and the folder store reachable by the plugin. -/
structure World where
  sessions : SessionTokenState
  persistents : PersistentTokenState
  root : FolderState
  deriving Repr

/-- The File instance handed to the plugin for a picked file: per the
`getFileForOpening` declaration, such files are read-only. -/
def pickedToFile (p : PickedFile) : File :=
  ⟨⟨p.name, p.provider, p.id, EntryKind.file⟩, ModeSymbol.readOnly,
   p.content⟩

/-- Modelled from the spec: `FileSystemProvider.getFileForOpening` — no
implementation exists under src/.  Per the declaration and spec sections
4.5 and 7, the returned files are read-only, cancellation resolves to an
empty result rather than throwing, and the picker mutates no
plugin-observable state (the multi/single distinction of `allowMultiple`
is modelled uniformly as the list of picked files). -/
def getFileForOpening (w : World) (choice : PickResult (List PickedFile)) :
    Except ErrorKind (List File) × World :=
  match choice with
  | PickResult.cancelled => (Except.ok [], w)
  | PickResult.picked ps => (Except.ok (ps.map pickedToFile), w)

/-- Modelled from the spec: `FileSystemProvider.getFolder` — no
implementation exists under src/.  Per the declaration and spec sections
4.5 and 7, dismissal of the picker resolves to null (here `none`) with
no error and no plugin-observable state mutation. -/
def getFolder (w : World) (choice : PickResult PickedFolder) :
    Except ErrorKind (Option FolderState) × World :=
  match choice with
  | PickResult.cancelled => (Except.ok none, w)
  | PickResult.picked p =>
    (Except.ok (some ⟨⟨p.name, p.provider, p.id, EntryKind.folder⟩,
        p.children⟩), w)

/-- C7: When the user cancels the picker, `getFolder` resolves to null
and `getFileForOpening` resolves to an empty result; neither throws an
error and neither mutates the plugin-observable state. -/
theorem picker_cancellation_is_not_error (w : World) :
    getFolder w PickResult.cancelled = (Except.ok none, w) ∧
    getFileForOpening w PickResult.cancelled = (Except.ok [], w) :=
  ⟨rfl, rfl⟩

/-- C5: Every File obtained through `getFileForOpening` is read-only,
and every write on it — for any data, any format, any append flag and
any capacity — fails with FileIsReadOnly and leaves the file (its
content included) unchanged. -/
theorem write_to_opened_file_fails (w : World)
    (choice : PickResult (List PickedFile)) (files : List File) (f : File)
    (hres : (getFileForOpening w choice).1 = Except.ok files)
    (hmem : f ∈ files) :
    f.mode = ModeSymbol.readOnly ∧
    ∀ (data : FileData) (opts : WriteOptions) (capacity : Option Nat),
      (write f data opts capacity).1
          = Except.error ErrorKind.fileIsReadOnly ∧
      (write f data opts capacity).2 = f := by
  have hmode : f.mode = ModeSymbol.readOnly := by
    cases choice with
    | cancelled =>
      simp [getFileForOpening] at hres
      subst hres
      simp at hmem
    | picked ps =>
      simp [getFileForOpening] at hres
      subst hres
      obtain ⟨p, _, hp⟩ := List.mem_map.mp hmem
      rw [← hp]
      rfl
  refine ⟨hmode, ?_⟩
  intro data opts capacity
  constructor <;> simp [write, hmode]

/-- Witness for C5: the single file picked in a concrete
`getFileForOpening` call is read-only and a utf8 write of "x" on it
fails with FileIsReadOnly, leaving it unchanged. -/
theorem write_to_opened_file_fails_witness :
    (pickedToFile ⟨"a.txt", 0, "id0", [104, 105]⟩).mode
        = ModeSymbol.readOnly ∧
    ∀ (data : FileData) (opts : WriteOptions) (capacity : Option Nat),
      (write (pickedToFile ⟨"a.txt", 0, "id0", [104, 105]⟩)
          data opts capacity).1
          = Except.error ErrorKind.fileIsReadOnly ∧
      (write (pickedToFile ⟨"a.txt", 0, "id0", [104, 105]⟩)
          data opts capacity).2
          = pickedToFile ⟨"a.txt", 0, "id0", [104, 105]⟩ :=
  write_to_opened_file_fails
    ⟨⟨[], 0⟩, ⟨[]⟩, ⟨⟨"root", 0, "rid", EntryKind.folder⟩, []⟩⟩
    (PickResult.picked [⟨"a.txt", 0, "id0", [104, 105]⟩])
    [pickedToFile ⟨"a.txt", 0, "id0", [104, 105]⟩]
    (pickedToFile ⟨"a.txt", 0, "id0", [104, 105]⟩)
    rfl (List.mem_singleton.mpr rfl)

/-- Modelled from the spec: `Folder.getEntries` — the current child-name
set of the folder's backing store (spec section 4.4); no implementation
exists under src/. -/
def getEntries (folder : FolderState) : List String :=
  folder.children.map Prod.fst

/-- Modelled from the spec: `Folder.createFile` — no implementation
exists under src/.  Per the declaration's doc comment and spec section
4.4, this creates a File entry object only and does NOT create the
actual file on disk: the backing store is untouched until the first
write.  The returned file is read-write with empty content; a name
collision without `overwrite` fails with entry-exists.  The folder value
paired with the result is the parent's backing store after the call. -/
def createFile (parent : FolderState) (name : String) (overwrite : Bool) :
    Except ErrorKind File × FolderState :=
  if (getEntries parent).contains name && !overwrite then
    (Except.error ErrorKind.entryExists, parent)
  else
    (Except.ok ⟨⟨name, parent.entry.provider,
        parent.entry.id ++ "/" ++ name, EntryKind.file⟩,
        ModeSymbol.readWrite, []⟩,
     parent)

/-- Modelled from the spec: `Folder.createFolder` — no implementation
exists under src/.  Per spec section 4.4, folder creation materializes
immediately: the child is added to the parent's backing store by the
call itself. -/
def createFolder (parent : FolderState) (name : String) :
    Except ErrorKind FolderState × FolderState :=
  if (getEntries parent).contains name then
    (Except.error ErrorKind.entryExists, parent)
  else
    (Except.ok ⟨⟨name, parent.entry.provider,
        parent.entry.id ++ "/" ++ name, EntryKind.folder⟩, []⟩,
     ⟨parent.entry, (name, EntryKind.folder) :: parent.children⟩)

/-- Modelled from the spec: `Folder.createEntry` — dispatches on the
`type` option: a file type creates a lazy File entry object, a folder
type creates a folder immediately (spec section 4.4). -/
def createEntry (parent : FolderState) (name : String) (etype : TypeSymbol)
    (overwrite : Bool) : Except ErrorKind Entry × FolderState :=
  match etype with
  | TypeSymbol.file =>
    let r := createFile parent name overwrite
    (r.1.map (fun f => f.entry), r.2)
  | TypeSymbol.folder =>
    let r := createFolder parent name
    (r.1.map (fun fs => fs.entry), r.2)

/-- Modelled from the spec: a write performed on a file entry that lives
in `parent` — when the write resolves successfully, the file
materializes in the parent's backing store (spec section 4.4: backing
storage materializes lazily on first write); a failed write leaves the
store untouched. -/
def writeInFolder (parent : FolderState) (f : File) (data : FileData)
    (opts : WriteOptions) (capacity : Option Nat) :
    (Except ErrorKind Nat × File) × FolderState :=
  match write f data opts capacity with
  | (Except.ok n, f2) =>
    ((Except.ok n, f2),
     if (getEntries parent).contains f.entry.name then parent
     else ⟨parent.entry, (f.entry.name, EntryKind.file) :: parent.children⟩)
  | (Except.error err, f2) => ((Except.error err, f2), parent)

/-- C6: `createFile` (and `createEntry` with the file type) returns a
File entry object without touching the parent's backing store — so
before any write the listing is exactly what it was, and need not
contain the new name; once a write on that File resolves successfully,
the name is present in the parent's listing.  `createFolder` (and
`createEntry` with the folder type), by contrast, puts the new name in
the listing immediately. -/
theorem create_file_is_lazy (parent : FolderState) (name : String)
    (overwrite : Bool) (f : File)
    (hfile : (createFile parent name overwrite).1 = Except.ok f) :
    (createFile parent name overwrite).2 = parent ∧
    (createEntry parent name TypeSymbol.file overwrite).2 = parent ∧
    f.entry.name = name ∧
    (∀ (data : FileData) (opts : WriteOptions) (capacity : Option Nat)
        (n : Nat),
      (writeInFolder parent f data opts capacity).1.1 = Except.ok n →
      (getEntries (writeInFolder parent f data opts capacity).2).contains
          name = true) ∧
    (∀ child : FolderState,
      (createFolder parent name).1 = Except.ok child →
      (getEntries (createFolder parent name).2).contains name = true) := by
  have hname : f.entry.name = name := by
    unfold createFile at hfile
    split at hfile
    · simp at hfile
    · simp only [Except.ok.injEq] at hfile
      rw [← hfile]
  have hpar : (createFile parent name overwrite).2 = parent := by
    unfold createFile
    split <;> rfl
  refine ⟨hpar, hpar, hname, ?_, ?_⟩
  · intro data opts capacity n hw
    unfold writeInFolder at hw ⊢
    rcases hwrite : write f data opts capacity with ⟨res, f2⟩
    cases res with
    | error err => rw [hwrite] at hw; simp at hw
    | ok m =>
      by_cases hc : (getEntries parent).contains f.entry.name = true
      · simp only [if_pos hc]
        rw [hname] at hc
        exact hc
      · simp only [if_neg hc]
        simp [getEntries, hname]
  · intro child hchild
    unfold createFolder at hchild ⊢
    split at hchild
    · simp at hchild
    next hcond =>
      rw [if_neg hcond]
      simp [getEntries]

/-- Witness for C6: in an empty root folder, creating the file "x"
leaves the listing empty; a successful utf8 write of "abc" on the
returned File makes "x" appear; creating the folder "d" makes "d"
appear immediately. -/
theorem create_file_is_lazy_witness :
    (createFile ⟨⟨"root", 0, "rid", EntryKind.folder⟩, []⟩ "x" false).2
        = ⟨⟨"root", 0, "rid", EntryKind.folder⟩, []⟩ ∧
    (createEntry ⟨⟨"root", 0, "rid", EntryKind.folder⟩, []⟩ "x"
        TypeSymbol.file false).2
        = ⟨⟨"root", 0, "rid", EntryKind.folder⟩, []⟩ ∧
    (freshReadWriteFile "x" 0 "rid/x").entry.name = "x" ∧
    (∀ (data : FileData) (opts : WriteOptions) (capacity : Option Nat)
        (n : Nat),
      (writeInFolder ⟨⟨"root", 0, "rid", EntryKind.folder⟩, []⟩
          (freshReadWriteFile "x" 0 "rid/x") data opts capacity).1.1
          = Except.ok n →
      (getEntries (writeInFolder ⟨⟨"root", 0, "rid", EntryKind.folder⟩, []⟩
          (freshReadWriteFile "x" 0 "rid/x") data opts capacity).2).contains
          "x" = true) ∧
    (∀ child : FolderState,
      (createFolder ⟨⟨"root", 0, "rid", EntryKind.folder⟩, []⟩ "x").1
          = Except.ok child →
      (getEntries (createFolder ⟨⟨"root", 0, "rid", EntryKind.folder⟩,
          []⟩ "x").2).contains "x" = true) :=
  create_file_is_lazy ⟨⟨"root", 0, "rid", EntryKind.folder⟩, []⟩ "x" false
    (freshReadWriteFile "x" 0 "rid/x") rfl

/-- The methods of the storage layer's `Entry`, `File`, `Folder` and
`FileSystemProvider` classes as declared in src/uxp/index.d.ts. -/
inductive StorageOp where
  | entryCopyTo
  | entryMoveTo
  | entryDelete
  | entryGetMetadata
  | fileRead
  | fileWrite
  | folderGetEntries
  | folderCreateEntry
  | folderCreateFile
  | folderCreateFolder
  | folderGetEntry
  | folderRenameEntry
  | providerGetFileForOpening
  | providerGetFileForSaving
  | providerGetFolder
  | providerGetTemporaryFolder
  | providerGetDataFolder
  | providerGetPluginFolder
  | providerGetFsUrl
  | providerGetNativePath
  | providerCreateSessionToken
  | providerGetEntryForSessionToken
  | providerCreatePersistentToken
  | providerGetEntryForPersistentToken
  deriving DecidableEq, Repr

/-- Whether the declared return type of the operation in
src/uxp/index.d.ts is a Promise (asynchronous): `getEntries` returns a
plain `Entry` array, `renameEntry` returns `void`, `getFsUrl`,
`getNativePath`, `createSessionToken` and `getEntryForSessionToken`
return plain values; every other listed operation returns a Promise. -/
def returnsPromise : StorageOp → Bool
  | StorageOp.folderGetEntries => false
  | StorageOp.folderRenameEntry => false
  | StorageOp.providerGetFsUrl => false
  | StorageOp.providerGetNativePath => false
  | StorageOp.providerCreateSessionToken => false
  | StorageOp.providerGetEntryForSessionToken => false
  | _ => true

/-- Whether the operation bears I/O, per the claim's own enumeration
(spec section 5): content reads and writes, copy/move/delete, metadata
re-reads, child listing/creation/lookup/rename, picker-based
acquisition, well-known-folder acquisition and persistent-token
mint/resolution touch the backing store or the host; the url/path
accessors and the session-token pair are in-memory only. -/
def isIOBearing : StorageOp → Bool
  | StorageOp.providerGetFsUrl => false
  | StorageOp.providerGetNativePath => false
  | StorageOp.providerCreateSessionToken => false
  | StorageOp.providerGetEntryForSessionToken => false
  | _ => true

/-- C9 counterexample: the claim "every I/O-bearing operation of the
storage layer returns a Promise" is false of the declarations:
`Folder.getEntries` lists the backing store's current children yet is
declared to return `Entry[]` synchronously (likewise
`Folder.renameEntry` returns `void`). -/
theorem io_sync_counterexample :
    ¬ (∀ op : StorageOp, isIOBearing op = true → returnsPromise op = true) := by
  intro h
  exact absurd (h StorageOp.folderGetEntries (by decide)) (by decide)

/-- C9 (amended): every I/O-bearing operation of the storage layer is
declared asynchronous except `Folder.getEntries` and
`Folder.renameEntry`, which the declaration file makes synchronous; the
remaining synchronous operations are exactly those two, the url/path
metadata accessors and the session-token mint/lookup pair. -/
theorem io_ops_async (op : StorageOp) :
    (isIOBearing op = true → op = StorageOp.folderGetEntries ∨
      op = StorageOp.folderRenameEntry ∨ returnsPromise op = true) ∧
    (returnsPromise op = false ↔
      (op = StorageOp.folderGetEntries ∨
       op = StorageOp.folderRenameEntry ∨
       op = StorageOp.providerGetFsUrl ∨
       op = StorageOp.providerGetNativePath ∨
       op = StorageOp.providerCreateSessionToken ∨
       op = StorageOp.providerGetEntryForSessionToken)) := by
  cases op <;> simp [isIOBearing, returnsPromise]

/-- Witness for C9 (amended): `File.read` is I/O-bearing and declared
asynchronous. -/
theorem io_ops_async_witness :
    StorageOp.fileRead = StorageOp.folderGetEntries ∨
    StorageOp.fileRead = StorageOp.folderRenameEntry ∨
    returnsPromise StorageOp.fileRead = true :=
  (io_ops_async StorageOp.fileRead).1 (by decide)

/-- An arbitrary runtime value as passable to the static type guards:
the guards are documented safe even for null and undefined. -/
inductive JSValue where
  | nullValue
  | undefinedValue
  | entryValue (e : Entry)
  | providerValue (providerId : Nat)
  | otherValue (tag : Nat)
  deriving DecidableEq, Repr

/-- Modelled from the spec and the declaration's doc comment:
`File.isFile` static type guard — determines whether the argument is a
file, safe to use even if the argument is null or undefined. -/
def File.isFile : JSValue → Bool
  | JSValue.entryValue e => e.kind == EntryKind.file
  | _ => false

/-- Modelled from the spec and the declaration: `Folder.isFolder`
static type guard. -/
def Folder.isFolder : JSValue → Bool
  | JSValue.entryValue e => e.kind == EntryKind.folder
  | _ => false

/-- Modelled from the spec and the declaration's doc comment:
`FileSystemProvider.isFileSystemProvider` static type guard — safe even
if the object is null or undefined. -/
def FileSystemProvider.isFileSystemProvider : JSValue → Bool
  | JSValue.providerValue _ => true
  | _ => false

/-- C10: The three static type guards are total on arbitrary values —
each returns a boolean that is true exactly on matching values and false
on everything else, null and undefined included (being Lean functions
into Bool, they can never throw). -/
theorem type_guards_total (v : JSValue) :
    (File.isFile v = true ↔
      ∃ e : Entry, v = JSValue.entryValue e ∧ e.kind = EntryKind.file) ∧
    (Folder.isFolder v = true ↔
      ∃ e : Entry, v = JSValue.entryValue e ∧ e.kind = EntryKind.folder) ∧
    (FileSystemProvider.isFileSystemProvider v = true ↔
      ∃ p : Nat, v = JSValue.providerValue p) ∧
    File.isFile JSValue.nullValue = false ∧
    File.isFile JSValue.undefinedValue = false ∧
    Folder.isFolder JSValue.nullValue = false ∧
    Folder.isFolder JSValue.undefinedValue = false ∧
    FileSystemProvider.isFileSystemProvider JSValue.nullValue = false ∧
    FileSystemProvider.isFileSystemProvider JSValue.undefinedValue
        = false := by
  refine ⟨?_, ?_, ?_, rfl, rfl, rfl, rfl, rfl, rfl⟩ <;>
    cases v <;>
    simp [File.isFile, Folder.isFolder,
      FileSystemProvider.isFileSystemProvider]

end storage
end UXP
